import Mathlib

/-!
Shallow embedding of the data-forge preprocessing pipeline, translated from
the mock preprocessor module of `src/app_original.py`
(`create_mock_preprocessor`): `calculate_absolute_fields`,
`standardize_field_names`, `extract_year_and_week`, `finalize_output_fields`,
`validate_output_compliance` and `process_all_files`.

Modelling conventions:
* A pandas cell is a `Cell`: a numeric value (`Cell.num`, an exact rational
  standing for the source's floating-point number), non-numeric text
  (`Cell.str`), a boolean (`Cell.bool`), or a missing value (`Cell.empty`,
  pandas NaN).  `pd.to_numeric(-, errors='coerce')` is `toNumeric`: text that
  parses as a number is modelled directly as `Cell.num`, so `Cell.str` is
  exactly the text that coerces to NaN.
* A pandas DataFrame is a `DF`: an ordered list of named columns.
* `datetime.now()` is modelled by passing the current calendar year and the
  current ISO week as explicit arguments.
* An unrecoverable exception raised for one file after its year/week key has
  been extracted (for example while writing the output CSV) is modelled by
  the `write_fails` flag of `InputFile`.
-/

inductive Cell where
  | num (q : ℚ)
  | str (s : String)
  | bool (b : Bool)
  | empty
  deriving DecidableEq

structure Col where
  name : String
  vals : List Cell
  deriving DecidableEq

structure DF where
  cols : List Col
  deriving DecidableEq

/-- The column names of a DataFrame (`df.columns`). -/
def DF.names (df : DF) : List String :=
  df.cols.map Col.name

/-- First column with the given name, if any. -/
def findColL (l : List Col) (n : String) : Option Col :=
  l.find? (fun c => c.name == n)

def DF.findCol (df : DF) (n : String) : Option Col :=
  findColL df.cols n

/-- Embeds `name in df.columns`. -/
def DF.hasCol (df : DF) (n : String) : Bool :=
  (df.findCol n).isSome

/-- The values of column `n` (`df[n]`); `[]` when the column is absent. -/
def colVals (df : DF) (n : String) : List Cell :=
  match df.findCol n with
  | some c => c.vals
  | none => []

/-- Number of rows (`len(df)`); columns of a DataFrame all share it. -/
def DF.nrows (df : DF) : Nat :=
  match df.cols with
  | [] => 0
  | c :: _ => c.vals.length

/-- Embeds `df.empty`: true when the DataFrame has no rows or no columns. -/
def DF.isEmpty (df : DF) : Bool :=
  df.cols.isEmpty || df.nrows == 0

/-- Embeds `df[n] = vs`: replace the column in place when present, else append. -/
def setColL (l : List Col) (n : String) (vs : List Cell) : List Col :=
  if (findColL l n).isSome then
    l.map (fun c => if c.name == n then ⟨n, vs⟩ else c)
  else
    l ++ [⟨n, vs⟩]

def DF.setCol (df : DF) (n : String) (vs : List Cell) : DF :=
  ⟨setColL df.cols n vs⟩

/-- Embeds `pd.to_numeric(-, errors='coerce')` on one cell: numbers pass through,
booleans coerce to 1/0, non-numeric text and missing values become NaN
(`none`). -/
def toNumeric : Cell → Option ℚ
  | Cell.num q => some q
  | Cell.bool b => some (if b then 1 else 0)
  | Cell.str _ => none
  | Cell.empty => none

/-- Embeds `pd.to_numeric(df[f], errors='coerce').fillna(d)`. -/
def seriesFill (df : DF) (f : String) (d : ℚ) : List ℚ :=
  (colVals df f).map (fun c => (toNumeric c).getD d)

/-- Embeds `series.max()` (`none` is pandas NaN on an empty series). -/
def listMax : List ℚ → Option ℚ
  | [] => none
  | x :: xs => some (xs.foldl (fun a b => if a ≤ b then b else a) x)

/-- Floor of a rational (used to define rounding). -/
def ratFloor (q : ℚ) : ℤ :=
  Int.fdiv q.num q.den

/-- Embeds `astype(int)` on a float value: truncation toward zero. -/
def ratTrunc (q : ℚ) : ℤ :=
  Int.tdiv q.num q.den

/-- Embeds `Series.round()` (numpy): round half to even, then `astype(int)`. -/
def roundHalfEven (q : ℚ) : ℤ :=
  let f := ratFloor q
  let r := q - (f : ℚ)
  if r < 1/2 then f
  else if 1/2 < r then f + 1
  else if f % 2 = 0 then f else f + 1

/-- Embeds `pat in s` (Python substring test) on character lists. -/
def startsWithL : List Char → List Char → Bool
  | [], _ => true
  | _ :: _, [] => false
  | p :: ps, c :: cs => p == c && startsWithL ps cs

def hasSubL (pat : List Char) : List Char → Bool
  | [] => startsWithL pat []
  | c :: cs => startsWithL pat (c :: cs) || hasSubL pat cs

/-- Embeds `pat in s` for strings. -/
def containsSub (s pat : String) : Bool :=
  hasSubL pat.data s.data

/-- Embeds `re.search(r'[一-鿿]', text)`: does the string contain a CJK
character? -/
def chineseChar (c : Char) : Bool :=
  0x4e00 ≤ c.toNat && c.toNat ≤ 0x9fff

def containsChinese (s : String) : Bool :=
  s.data.any chineseChar

/-- One step of Python `str.replace` (all non-overlapping occurrences,
left to right), with explicit fuel for structural recursion. -/
def replaceLAux (pat rep : List Char) : Nat → List Char → List Char
  | 0, l => l
  | _ + 1, [] => []
  | fuel + 1, c :: cs =>
    if pat ≠ [] && startsWithL pat (c :: cs) then
      rep ++ replaceLAux pat rep fuel (List.drop (pat.length - 1) cs)
    else
      c :: replaceLAux pat rep fuel cs

/-- Python `s.replace(pat, rep)`. -/
def pyReplace (s pat rep : String) : String :=
  String.mk (replaceLAux pat.data rep.data s.data.length s.data)

/-- Python `s.strip('_')`. -/
def stripUnderscore (s : String) : String :=
  String.mk (((s.data.dropWhile (fun c => c == '_')).reverse.dropWhile
    (fun c => c == '_')).reverse)

/-- Python `s.strip()` (whitespace). -/
def pyStrip (s : String) : String :=
  String.mk (((s.data.dropWhile Char.isWhitespace).reverse.dropWhile
    Char.isWhitespace).reverse)

/-- Python `s.lower()` (ASCII letters; other characters unchanged). -/
def pyLower (s : String) : String :=
  String.mk (s.data.map Char.toLower)

/-- Value of a list of ASCII digits. -/
def digitsToInt (l : List Char) : ℤ :=
  Int.ofNat (l.foldl (fun n c => n * 10 + (c.toNat - '0'.toNat)) 0)

/-- Embeds `re.search(r'(\d{4})', filename)`: the first run of four consecutive
digits, scanned left to right. -/
def firstFourDigitAux : List Char → Option ℤ
  | [] => none
  | a :: rest =>
    match rest with
    | b :: c :: d :: _ =>
      if a.isDigit && b.isDigit && c.isDigit && d.isDigit then
        some (digitsToInt [a, b, c, d])
      else
        firstFourDigitAux rest
    | _ => none

def firstFourDigit (s : String) : Option ℤ :=
  firstFourDigitAux s.data

/-- Embeds `re.search(r'第(\d+)周', filename)`: at each `第`, the maximal digit run
must be non-empty and directly followed by `周`. -/
def weekMatchAux : List Char → Option ℤ
  | [] => none
  | c :: rest =>
    if c == '第' then
      let ds := rest.takeWhile Char.isDigit
      let rest2 := rest.dropWhile Char.isDigit
      if !ds.isEmpty && rest2.head? == some '周' then
        some (digitsToInt ds)
      else
        weekMatchAux rest
    else
      weekMatchAux rest

def weekFromFilename (s : String) : Option ℤ :=
  weekMatchAux s.data

/-- The 17 filter-dimension mappings (`FIELD_MAPPING`), in source order. -/
def FIELD_MAPPING : List (String × String) :=
  [("刷新时间", "snapshot_date"),
   ("保险起期", "policy_start_year"),
   ("业务类型分类", "business_type_category"),
   ("成都中支", "chengdu_branch"),
   ("三级机构", "third_level_organization"),
   ("客户类别3", "customer_category_3"),
   ("险种类", "insurance_type"),
   ("交三/主全", "coverage_type"),
   ("续保情况", "renewal_status"),
   ("终端来源", "terminal_source"),
   ("车险分等级", "vehicle_insurance_grade"),
   ("高速风险等级", "highway_risk_grade"),
   ("大货车评分", "large_truck_score"),
   ("小货车评分", "small_truck_score"),
   ("是否新能源车1", "is_new_energy_vehicle"),
   ("是否过户车", "is_transferred_vehicle"),
   ("周次", "week_number")]

/-- Embeds `BOOLEAN_VALUE_MAP` restricted to its string keys; the numeric keys
`1`/`0` (which in Python also capture `True`/`False`) are handled directly
in `standardize_boolean_value`. -/
def BOOLEAN_VALUE_MAP : List (String × Bool) :=
  [("是", true), ("否", false),
   ("Y", true), ("N", false),
   ("true", true), ("false", false),
   ("1", true), ("0", false)]

/-- Embeds `standardize_boolean_value`: NaN is False; strings are stripped and
looked up in the map (default False); the numeric keys `1`/`0` map to
True/False and any other number defaults to False; Python booleans hit the
`1`/`0` keys (`True == 1`). -/
def standardize_boolean_value : Cell → Bool
  | Cell.empty => false
  | Cell.str s => (BOOLEAN_VALUE_MAP.lookup (pyStrip s)).getD false
  | Cell.num q => if q = 1 then true else false
  | Cell.bool b => b

/-- Embeds `possible_source_fields['signed_premium']`. -/
def possible_signed_premium : List String :=
  ["跟单保费", "签单保费", "signed_premium_10k", "跟单保费(万)", "签单保费(万)"]

/-- Embeds `possible_source_fields['matured_premium']`. -/
def possible_matured_premium : List String :=
  ["满期净保费", "满期保费", "matured_premium_10k", "满期净保费(万)", "满期保费(万)"]

/-- Embeds `possible_source_fields['claim_payment']`. -/
def possible_claim_payment : List String :=
  ["总赔款", "已报告赔款", "reported_claim_payment_10k", "总赔款(万)", "赔款(万)"]

/-- Embeds `possible_source_fields['claim_count']`. -/
def possible_claim_count : List String :=
  ["案件数", "赔案件数", "claim_case_count_raw", "件数"]

/-- Embeds `possible_source_fields['policy_count_field']`. -/
def possible_policy_count_field : List String :=
  ["保单件数", "policy_count", "件数"]

/-- Embeds `possible_source_fields['expense_ratio']`. -/
def possible_expense_ratio : List String :=
  ["费用率", "expense_ratio", "手续费率"]

/-- Embeds `possible_source_fields['commercial_coeff']`. -/
def possible_commercial_coeff : List String :=
  ["商业险自主系数", "commercial_coefficient", "自主系数"]

/-- Embeds `possible_source_fields['variable_cost_ratio']`. -/
def possible_variable_cost_ratio : List String :=
  ["变动成本率", "variable_cost_ratio", "成本率"]

/-- Embeds `possible_source_fields['average_premium']`. -/
def possible_average_premium : List String :=
  ["单均保费", "average_premium", "平均保费"]

/-- Embeds `find_field`: first candidate present among the DataFrame columns. -/
def find_field (df : DF) (field_list : List String) : Option String :=
  field_list.find? (fun n => df.hasCol n)

/-- Embeds `is_wan_yuan_unit`: explicit scale marker in the column name, otherwise
maximum value below 10000 (a NaN maximum of an empty series fails the
test). -/
def is_wan_yuan_unit (series : List ℚ) (field_name : String) : Bool :=
  if containsSub field_name "(万)" || containsSub field_name "（万）" then
    true
  else
    match listMax series with
    | some m => decide (m < 10000)
    | none => false

/-- The `if is_wan_yuan_unit(...): series * 10000 else series` pattern used
for the three monetary columns of `calculate_absolute_fields`. -/
def normalizeUnit (series : List ℚ) (field_name : String) : List ℚ :=
  if is_wan_yuan_unit series field_name then
    series.map (fun q => q * 10000)
  else
    series

/-- Row computation of `policy_count` from the average premium:
`result_df['policy_count'] = 0` then, on rows where the coerced average is
positive and not NaN, `round(signed / avg).astype(int)`. -/
def policyCountRow (s : ℚ) (c : Cell) : ℤ :=
  match toNumeric c with
  | some a => if 0 < a then roundHalfEven (s / a) else 0
  | none => 0

/-- Row computation of `commercial_premium_before_discount_yuan`: a copy of
the signed premium, overwritten with `signed / coeff` on rows where the
coerced coefficient is positive and not NaN. -/
def commercialRow (s : ℚ) (c : Cell) : ℚ :=
  match toNumeric c with
  | some a => if 0 < a then s / a else s
  | none => s

/-- Step 1 of `calculate_absolute_fields`: the `signed_premium_yuan`
series (unit-normalized first candidate, or a zero column). -/
def signedSeries (df : DF) : List ℚ :=
  match find_field df possible_signed_premium with
  | some f => normalizeUnit (seriesFill df f 0) f
  | none => List.replicate df.nrows 0

/-- Step 2: the `matured_premium_yuan` series (unit-normalized first
candidate, or 95% of the signed premium). -/
def maturedSeries (df : DF) : List ℚ :=
  match find_field df possible_matured_premium with
  | some f => normalizeUnit (seriesFill df f 0) f
  | none => (signedSeries df).map (fun q => q * (95/100))

/-- Step 3: the `policy_count` series (direct count field; else signed
premium over a positive average premium per row; else signed premium over
the default 20,000-yuan average). -/
def policyCountSeries (df : DF) : List ℤ :=
  match find_field df possible_policy_count_field with
  | some f => (colVals df f).map (fun c => ratTrunc ((toNumeric c).getD 0))
  | none =>
    match find_field df possible_average_premium with
    | some af => List.zipWith policyCountRow (signedSeries df) (colVals df af)
    | none => (signedSeries df).map (fun s => roundHalfEven (s / 20000))

/-- Step 4: the `claim_case_count` series (direct count field, else 5% of
the policy count, rounded). -/
def claimCaseSeries (df : DF) : List ℤ :=
  match find_field df possible_claim_count with
  | some f => (colVals df f).map (fun c => ratTrunc ((toNumeric c).getD 0))
  | none => (policyCountSeries df).map (fun p => roundHalfEven ((p : ℚ) * (5/100)))

/-- Step 5: the `reported_claim_payment_yuan` series (unit-normalized first
candidate, else 60% of the signed premium). -/
def claimPaymentSeries (df : DF) : List ℚ :=
  match find_field df possible_claim_payment with
  | some f => normalizeUnit (seriesFill df f 0) f
  | none => (signedSeries df).map (fun q => q * (6/10))

/-- Step 6: the `expense_amount_yuan` series (signed premium times the
expense ratio, the ratio rescaled from percentages when its maximum exceeds
1; else 15% of the signed premium). -/
def expenseSeries (df : DF) : List ℚ :=
  match find_field df possible_expense_ratio with
  | some f =>
    let r := seriesFill df f 0
    let r2 :=
      match listMax r with
      | some m => if 1 < m then r.map (fun q => q / 100) else r
      | none => r
    List.zipWith (fun s q => s * q) (signedSeries df) r2
  | none => (signedSeries df).map (fun q => q * (15/100))

/-- Step 7: the `commercial_premium_before_discount_yuan` series (signed
premium over a positive coefficient per row, else the signed premium). -/
def commercialSeries (df : DF) : List ℚ :=
  match find_field df possible_commercial_coeff with
  | some f => List.zipWith commercialRow (signedSeries df) (colVals df f)
  | none => signedSeries df

/-- Step 8: the `marginal_contribution_amount_yuan` series: matured premium
times `(100 - ratio) / 100`, the coerced ratio defaulting to 60 on
unparsable cells and rescaled by 100 when its maximum is at most 1; when no
ratio column exists, 40% of the matured premium. -/
def marginalSeries (df : DF) : List ℚ :=
  match find_field df possible_variable_cost_ratio with
  | some f =>
    let v := seriesFill df f 60
    let v2 :=
      match listMax v with
      | some m => if m ≤ 1 then v.map (fun q => q * 100) else v
      | none => v
    List.zipWith (fun mt r => mt * ((100 - r) / 100)) (maturedSeries df) v2
  | none => (maturedSeries df).map (fun q => q * (4/10))

/-- Embeds `calculate_absolute_fields`: appends the 8 derived columns, in the
source's assignment order, to a copy of the input DataFrame. -/
def calculate_absolute_fields (df : DF) : DF :=
  ((((((((df.setCol "signed_premium_yuan"
    ((signedSeries df).map Cell.num)).setCol
    "matured_premium_yuan" ((maturedSeries df).map Cell.num)).setCol
    "policy_count" ((policyCountSeries df).map (fun z => Cell.num (z : ℚ)))).setCol
    "claim_case_count" ((claimCaseSeries df).map (fun z => Cell.num (z : ℚ)))).setCol
    "reported_claim_payment_yuan" ((claimPaymentSeries df).map Cell.num)).setCol
    "expense_amount_yuan" ((expenseSeries df).map Cell.num)).setCol
    "commercial_premium_before_discount_yuan"
      ((commercialSeries df).map Cell.num)).setCol
    "marginal_contribution_amount_yuan" ((marginalSeries df).map Cell.num))

/-- Embeds `translation_map` of `_generate_english_name`, in source order. -/
def translation_map : List (String × String) :=
  [("保费", "premium"), ("件数", "count"), ("金额", "amount"),
   ("数量", "quantity"), ("率", "ratio"), ("时间", "time"),
   ("日期", "date"), ("类型", "type"), ("状态", "status")]

/-- Embeds `re.sub(r'[^a-zA-Z0-9一-鿿]', '_', -)`: keep ASCII alphanumerics and CJK
characters, replace everything else by an underscore. -/
def wordChar (c : Char) : Bool :=
  (('a' ≤ c && c ≤ 'z') || ('A' ≤ c && c ≤ 'Z') || ('0' ≤ c && c ≤ '9')
    || chineseChar c)

/-- Embeds `_generate_english_name`: apply the synonym translations, replace special
characters by underscores, lower-case, strip underscores; if the result still
contains CJK characters fall back to `field_<length>`. -/
def generate_english_name (chinese_name : String) : String :=
  let e1 := translation_map.foldl (fun acc p => pyReplace acc p.1 p.2)
    chinese_name
  let e2 := String.mk (e1.data.map (fun c => if wordChar c then c else '_'))
  let e3 := stripUnderscore (pyLower e2)
  if containsChinese e3 then "field_" ++ toString e3.length else e3

/-- The `while new_english_name in used_english_names` loop: the first
`en_k` (k = 1, 2, ...) not yet used.  Fuel `used.length + 1` always
suffices, so the fuel-exhausted branch is unreachable. -/
def freshNameAux (en : String) (used : List String) : Nat → Nat → String
  | 0, k => en ++ "_" ++ toString k
  | fuel + 1, k =>
    let cand := en ++ "_" ++ toString k
    if used.contains cand then freshNameAux en used fuel (k + 1) else cand

def freshName (en : String) (used : List String) : String :=
  freshNameAux en used (used.length + 1) 1

/-- The `rename_map` / `used_english_names` loop of
`standardize_field_names`, folded over `FIELD_MAPPING` in source order. -/
def buildRenameMap (df : DF) : List (String × String) × List String :=
  FIELD_MAPPING.foldl
    (fun acc p =>
      if df.hasCol p.1 then
        let en := if acc.2.contains p.2 then freshName p.2 acc.2 else p.2
        (acc.1 ++ [(p.1, en)], acc.2 ++ [en])
      else acc)
    ([], [])

/-- Columns treated as booleans by `standardize_field_names`. -/
def boolean_fields : List String :=
  ["is_new_energy_vehicle", "is_transferred_vehicle"]

/-- Replace the values of column `n` pointwise. -/
def DF.mapCol (df : DF) (n : String) (g : Cell → Cell) : DF :=
  ⟨df.cols.map (fun c => if c.name == n then ⟨c.name, c.vals.map g⟩ else c)⟩

/-- Embeds `standardize_field_names`: rename mapped Chinese columns to their English
names (suffixing on collision), transliterate remaining Chinese column names,
then standardize the two boolean columns. -/
def standardize_field_names (df : DF) : DF :=
  let rm := buildRenameMap df
  let df1 : DF := ⟨df.cols.map (fun c =>
    match rm.1.lookup c.name with
    | some en => ⟨en, c.vals⟩
    | none => c)⟩
  let rem := (df1.cols.filter (fun c => containsChinese c.name)).map Col.name
  let step2 := rem.foldl
    (fun (acc : DF × List String) col =>
      let en := generate_english_name col
      if acc.2.contains en then acc
      else (⟨acc.1.cols.map (fun c =>
        if c.name == col then ⟨en, c.vals⟩ else c)⟩, acc.2 ++ [en]))
    (df1, rm.2)
  boolean_fields.foldl
    (fun d f =>
      if d.hasCol f then
        d.mapCol f (fun c => Cell.bool (standardize_boolean_value c))
      else d)
    step2.1

/-- Embeds `Series.mode().iloc[0]`: the smallest among the most frequent values
(pandas mode returns the modal values sorted ascending). -/
def modeBetter (l : List ℚ) (a b : ℚ) : Bool :=
  l.count b < l.count a || (l.count a == l.count b && a < b)

def modeVal (l : List ℚ) : Option ℚ :=
  match l with
  | [] => none
  | x :: _ => some (l.foldl (fun acc q => if modeBetter l q acc then q else acc) x)

/-- Embeds `extract_year_and_week`: year from the mode of `policy_start_year` when
available, else the first 4-digit number of the file name, else the current
year; week from the mode of `week_number` when available, else the
`第N周` pattern of the file name, else the current ISO week. -/
def extract_year_and_week (df : DF) (filename : String)
    (nowYear nowWeek : ℤ) : ℤ × ℤ :=
  let pcol := colVals df "policy_start_year"
  let yearOpt : Option ℤ :=
    if df.hasCol "policy_start_year" && !pcol.isEmpty then
      (modeVal (pcol.filterMap toNumeric)).map ratTrunc
    else none
  let year : ℤ :=
    match yearOpt with
    | some y => y
    | none =>
      match firstFourDigit filename with
      | some y => y
      | none => nowYear
  let wcol := colVals df "week_number"
  let weekOpt : Option ℤ :=
    if df.hasCol "week_number" && !wcol.isEmpty then
      (modeVal (wcol.filterMap toNumeric)).map ratTrunc
    else none
  let week : ℤ :=
    match weekOpt with
    | some w => w
    | none =>
      match weekFromFilename filename with
      | some w => w
      | none => nowWeek
  (year, week)

/-- The 25 canonical output fields of `finalize_output_fields`, in order:
17 filter dimensions followed by the 8 derived fields. -/
def required_fields : List String :=
  ["snapshot_date", "policy_start_year", "business_type_category",
   "chengdu_branch", "third_level_organization", "customer_category_3",
   "insurance_type", "is_new_energy_vehicle", "coverage_type",
   "is_transferred_vehicle", "renewal_status", "vehicle_insurance_grade",
   "highway_risk_grade", "large_truck_score", "small_truck_score",
   "terminal_source", "week_number",
   "signed_premium_yuan", "matured_premium_yuan", "policy_count",
   "claim_case_count", "reported_claim_payment_yuan", "expense_amount_yuan",
   "commercial_premium_before_discount_yuan",
   "marginal_contribution_amount_yuan"]

/-- Default fill of `finalize_output_fields` for a missing field: 0 for the
two count fields, False for the two boolean fields, 0.0 for fields whose
name contains `yuan`, the empty string otherwise. -/
def defaultFor (field : String) : Cell :=
  if field = "policy_count" ∨ field = "claim_case_count" then
    Cell.num 0
  else if field = "is_new_energy_vehicle" ∨ field = "is_transferred_vehicle" then
    Cell.bool false
  else if containsSub field "yuan" then
    Cell.num 0
  else
    Cell.str ""

/-- Embeds pandas reindexing of a Series to a RangeIndex of length `ri`:
positions beyond the Series' length are filled with NaN (`Cell.empty`). -/
def reindexTo (ri : Nat) (vs : List Cell) : List Cell :=
  (List.range ri).map (fun i => (vs[i]?).getD Cell.empty)

/-- Embeds one `result_df[field] = ...` assignment of the
`finalize_output_fields` loop, with pandas' empty-index assignment
semantics (GH5632).  The state is the result frame: its columns so far and
its current index length `ri` (0 until an index is established).  A scalar
default broadcasts to `ri` rows — zero rows while no index exists.  A
non-empty present column assigned while the index is still empty first sets
the index to that column's length and reindexes every existing column to it,
filling with NaN; any other present column is aligned to the current
index. -/
def finalizeStep (df : DF) (st : List Col × Nat) (field : String) :
    List Col × Nat :=
  if df.hasCol field then
    let vs := colVals df field
    if st.2 == 0 && !vs.isEmpty then
      (st.1.map (fun c => Col.mk c.name (List.replicate vs.length Cell.empty))
        ++ [Col.mk field vs], vs.length)
    else
      (st.1 ++ [Col.mk field (reindexTo st.2 vs)], st.2)
  else
    (st.1 ++ [Col.mk field (List.replicate st.2 (defaultFor field))], st.2)

/-- Embeds `finalize_output_fields`: starting from an empty frame, assign
the 25 required fields in order — copying present columns and filling
missing ones with their scalar defaults under the index semantics of
`finalizeStep`. -/
def finalize_output_fields (df : DF) : DF :=
  ⟨(required_fields.foldl (finalizeStep df) ([], 0)).1⟩

def joinComma : List String → String
  | [] => ""
  | [s] => s
  | s :: rest => s ++ ", " ++ joinComma rest

/-- Embeds `validate_output_compliance` depends only on the column names: count
check, missing-field check, extra-field check, position-by-position order
check; compliant iff no issue. -/
def validateNames (ns : List String) : Bool × List String :=
  let countIssues : List String :=
    if ns.length ≠ 25 then ["字段数量不符"] else []
  let missing := required_fields.filter (fun f => !ns.contains f)
  let missingIssues : List String :=
    if !missing.isEmpty then ["缺少必需字段: " ++ joinComma missing] else []
  let extra := ns.filter (fun f => !required_fields.contains f)
  let extraIssues : List String :=
    if !extra.isEmpty then ["包含额外字段: " ++ joinComma extra] else []
  let orderIssues := (List.zip required_fields ns).filterMap
    (fun p => if p.1 ≠ p.2 then
      some ("字段顺序错误: 期望" ++ p.1 ++ " 实际" ++ p.2)
    else none)
  let issues := countIssues ++ missingIssues ++ extraIssues ++ orderIssues
  (issues.isEmpty, issues)

def validate_output_compliance (df : DF) : Bool × List String :=
  validateNames df.names

/-- One input table of a batch: source file name, content, and whether an
unrecoverable exception occurs after the year/week key is extracted (for
example while writing the output file). -/
structure InputFile where
  name : String
  df : DF
  write_fails : Bool
  deriving DecidableEq

/-- One entry of `self.processed_files`. -/
structure ProcessedInfo where
  source_file : String
  output_file : String
  year : ℤ
  week : ℤ
  records_count : Nat
  deriving DecidableEq

/-- The mutable state of `CarInsuranceDataRestructurer` during
`process_all_files`: `processed_files`, `failed_files` (name and reason) and
the `years_processed` set (insertion-ordered, duplicate-free list). -/
structure BatchState where
  processed : List ProcessedInfo
  failed : List (String × String)
  years : List ℤ
  deriving DecidableEq

/-- Embeds `self.years_processed.add(year)`. -/
def addYear (ys : List ℤ) (y : ℤ) : List ℤ :=
  if y ∈ ys then ys else ys ++ [y]

/-- Python 02d formatting of the week number. -/
def pad2 (w : ℤ) : String :=
  if 0 ≤ w ∧ w < 10 then "0" ++ toString w else toString w

/-- Output file name: the year, then 保单第, the zero-padded week, then
周变动成本明细表.csv. -/
def outputFilename (year week : ℤ) : String :=
  toString year ++ "保单第" ++ pad2 week ++ "周变动成本明细表.csv"

/-- The body of the per-file loop of `process_all_files`: an empty table is
recorded as a failure; otherwise the derived fields are computed, names are
standardized, the year/week key is extracted and the year recorded, the
week column is ensured, the output is finalized; an exception at output time
(`write_fails`) records a failure, else the file is recorded as processed. -/
def processOneFile (nowYear nowWeek : ℤ) (st : BatchState)
    (file : InputFile) : BatchState :=
  if file.df.isEmpty then
    { st with failed := st.failed ++ [(file.name, "文件为空")] }
  else
    let df1 := calculate_absolute_fields file.df
    let df2 := standardize_field_names df1
    let yw := extract_year_and_week df2 file.name nowYear nowWeek
    let st1 := { st with years := addYear st.years yw.1 }
    let df3 :=
      if df2.hasCol "week_number" then df2
      else df2.setCol "week_number" (List.replicate df2.nrows (Cell.num yw.2))
    let dfF := finalize_output_fields df3
    if file.write_fails then
      { st1 with failed := st1.failed ++ [(file.name, "处理失败")] }
    else
      { st1 with processed := st1.processed ++
          [⟨file.name, outputFilename yw.1 yw.2, yw.1, yw.2, dfF.nrows⟩] }

/-- Sorted-insertion sort for `sorted(list(self.years_processed))`. -/
def sortedInsert (y : ℤ) : List ℤ → List ℤ
  | [] => [y]
  | x :: xs => if y ≤ x then y :: x :: xs else x :: sortedInsert y xs

def sortInts (l : List ℤ) : List ℤ :=
  l.foldr sortedInsert []

/-- The `processing_summary` of the report produced by `process_all_files`,
together with the per-file entries. -/
structure ProcessingReport where
  total_files : Nat
  successful : Nat
  failed : Nat
  years_processed : List ℤ
  processed_files : List ProcessedInfo
  failed_files : List (String × String)
  deriving DecidableEq

/-- Embeds `process_all_files`: fold the per-file step over the batch in order and
assemble the report. -/
def process_all_files (nowYear nowWeek : ℤ)
    (files : List InputFile) : ProcessingReport :=
  let st := files.foldl (processOneFile nowYear nowWeek) ⟨[], [], []⟩
  ⟨st.processed.length + st.failed.length,
   st.processed.length,
   st.failed.length,
   sortInts st.years,
   st.processed,
   st.failed⟩

/-- The unit-normalization policy as worded by the specification: an explicit
scale marker in the original column name forces scaling by 10,000; otherwise
a maximum (with non-numeric entries coerced to zero) below 10,000 forces
scaling; otherwise values are kept as base units.  First matching rule
wins. -/
def unitPolicySpec (series : List ℚ) (field_name : String) : List ℚ :=
  if containsSub field_name "(万)" || containsSub field_name "（万）" then
    series.map (fun q => q * 10000)
  else
    match listMax series with
    | some m =>
      if m < 10000 then series.map (fun q => q * 10000) else series
    | none => series

/-- The year rule as worded by the specification: the mode of the mapped
policy-start-year column when it is present and yields at least one numeric
value, else the first 4-digit number of the file name, else the current
calendar year. -/
def yearSpec (df : DF) (filename : String) (nowYear : ℤ) : ℤ :=
  if df.hasCol "policy_start_year" then
    match modeVal ((colVals df "policy_start_year").filterMap toNumeric) with
    | some q => ratTrunc q
    | none =>
      match firstFourDigit filename with
      | some y => y
      | none => nowYear
  else
    match firstFourDigit filename with
    | some y => y
    | none => nowYear

/-- The week rule as worded by the specification: the mode of the mapped
week-number column when it is present and yields at least one numeric value,
else the `第N周` pattern of the file name, else the current ISO week. -/
def weekSpec (df : DF) (filename : String) (nowWeek : ℤ) : ℤ :=
  if df.hasCol "week_number" then
    match modeVal ((colVals df "week_number").filterMap toNumeric) with
    | some q => ratTrunc q
    | none =>
      match weekFromFilename filename with
      | some w => w
      | none => nowWeek
  else
    match weekFromFilename filename with
    | some w => w
    | none => nowWeek

/-- Scenario A table: only the two monetary columns
`签单保费(万) = 10` and `满期净保费(万) = 9.5`. -/
def dfScenarioA : DF :=
  ⟨[⟨"签单保费(万)", [Cell.num 10]⟩, ⟨"满期净保费(万)", [Cell.num (19/2)]⟩]⟩

/-- Counterexample table for the divide-by-zero claim: a signed premium of
100,000 yuan and an average premium of 0. -/
def dfZeroAvg : DF :=
  ⟨[⟨"签单保费(万)", [Cell.num 10]⟩, ⟨"单均保费", [Cell.num 0]⟩]⟩

/-- Scenario D table: two distinct Chinese claim-count synonyms. -/
def dfScenarioD : DF :=
  ⟨[⟨"案件数", [Cell.num 3]⟩, ⟨"赔案件数", [Cell.num 7]⟩]⟩

/-- A one-row table without `policy_start_year` or `week_number`. -/
def dfPlain : DF :=
  ⟨[⟨"a", [Cell.num 5]⟩]⟩

/-- Scenario C batch: three tables, the second of which is empty. -/
def scenarioCFiles : List InputFile :=
  [⟨"a.csv", dfPlain, false⟩, ⟨"b.csv", ⟨[]⟩, false⟩, ⟨"c.csv", dfPlain, false⟩]

/-- A non-empty table whose processing fails at output time. -/
def fileW9 : InputFile :=
  ⟨"w.csv", dfPlain, true⟩

/-- Witness table for the unparsable variable-cost-ratio rule: the ratio
cell does not parse, the matured premium is 20,000 yuan in base units. -/
def dfVarCost : DF :=
  ⟨[⟨"变动成本率", [Cell.str "N/A"]⟩, ⟨"满期保费", [Cell.num 20000]⟩]⟩

/-- A one-row table whose only column is non-canonical, so finalization
never establishes an index. -/
def dfOneRow : DF :=
  ⟨[⟨"x", [Cell.num 1]⟩]⟩

/-- A one-row table whose only canonical column is `snapshot_date`, the
first required field: every later missing field is filled after the index
exists. -/
def dfSnapOnly : DF :=
  ⟨[⟨"snapshot_date", [Cell.str "2025-01-01"]⟩]⟩

/-- A one-row table whose only canonical column is `week_number`
(position 17 of 25): the 16 missing fields before it are assigned while the
index is still empty and become NaN when it is established. -/
def dfWeekOnly : DF :=
  ⟨[⟨"week_number", [Cell.num 7]⟩]⟩

lemma finalizeStep_names (df : DF) (st : List Col × Nat) (field : String) :
    (finalizeStep df st field).1.map Col.name = st.1.map Col.name ++ [field] := by
  unfold finalizeStep
  by_cases h : df.hasCol field = true
  · rw [if_pos h]
    dsimp only
    by_cases h2 : (st.2 == 0 && !(colVals df field).isEmpty) = true
    · rw [if_pos h2]
      simp [List.map_map, Function.comp]
    · rw [if_neg h2]
      simp
  · rw [if_neg h]
    simp

lemma finalizeFold_names (df : DF) :
    ∀ (fs : List String) (st : List Col × Nat),
      ((fs.foldl (finalizeStep df) st).1).map Col.name
        = st.1.map Col.name ++ fs := by
  intro fs
  induction fs with
  | nil => intro st; simp
  | cons f t ih =>
    intro st
    rw [List.foldl_cons, ih (finalizeStep df st f), finalizeStep_names]
    simp

lemma finalize_names (df : DF) :
    (finalize_output_fields df).names = required_fields := by
  unfold finalize_output_fields DF.names
  rw [show (DF.mk (required_fields.foldl (finalizeStep df) ([], 0)).1).cols
      = (required_fields.foldl (finalizeStep df) ([], 0)).1 from rfl]
  rw [finalizeFold_names df required_fields ([], 0)]
  rfl

/-- C1: for every input table, the finalized output has exactly the 25
canonical fields, in the fixed catalog order (17 filter dimensions followed
by the 8 derived fields), and the compliance validator accepts it. -/
theorem spec_C1 (df : DF) :
    (finalize_output_fields df).names = required_fields
    ∧ required_fields.length = 25
    ∧ (validate_output_compliance (finalize_output_fields df)).1 = true := by
  refine ⟨finalize_names df, by decide, ?_⟩
  show (validateNames (finalize_output_fields df).names).1 = true
  rw [finalize_names df]
  decide

/-- C3: the unit-normalization decision of `is_wan_yuan_unit` as used on
every monetary column is exactly the specified first-match policy: scale
marker in the original column name forces multiplication by 10,000;
otherwise a maximum (non-numeric entries coerced to zero) below 10,000
forces multiplication by 10,000; otherwise the values are kept as base
units. -/
theorem spec_C3 (series : List ℚ) (field_name : String) :
    normalizeUnit series field_name = unitPolicySpec series field_name := by
  unfold normalizeUnit unitPolicySpec is_wan_yuan_unit
  by_cases h : (containsSub field_name "(万)"
      || containsSub field_name "（万）") = true
  · simp only [h, if_true]
  · simp only [Bool.not_eq_true] at h
    simp only [h, Bool.false_eq_true, if_false]
    cases hm : listMax series with
    | none => simp
    | some m =>
      by_cases hlt : m < 10000
      · simp [hlt]
      · simp [hlt]

attribute [local semireducible] Rat.mul Rat.add Rat.sub Rat.inv in
/-- C4 counterexample: with a signed premium of 100,000 yuan and an
average-premium divisor of 0, the code's policy count for the row is 0, not
`round(signed premium / 1)` as the claim states. -/
theorem spec_C4_counterexample :
    colVals (calculate_absolute_fields dfZeroAvg) "policy_count" = [Cell.num 0]
    ∧ Cell.num 0
      ≠ Cell.num ((roundHalfEven ((100000 : ℚ) / 1) : ℤ) : ℚ) := by
  constructor
  · decide
  · decide

/-- C4 (amended): no division by zero ever occurs; on a row whose
average-premium divisor is nonpositive the policy count is 0, and on a row
whose commercial coefficient is nonpositive the commercial premium before
discount stays equal to the signed premium. -/
theorem spec_C4 (s : ℚ) (c : Cell) (a : ℚ)
    (h1 : toNumeric c = some a) (h2 : a ≤ 0) :
    policyCountRow s c = 0 ∧ commercialRow s c = s := by
  unfold policyCountRow commercialRow
  rw [h1]
  have h3 : ¬ (0 < a) := not_lt.mpr h2
  simp [h3]

/-- C4 witness: the amended claim at signed premium 100,000 and divisor 0. -/
theorem spec_C4_witness :
    policyCountRow 100000 (Cell.num 0) = 0
    ∧ commercialRow 100000 (Cell.num 0) = 100000 :=
  spec_C4 100000 (Cell.num 0) 0 rfl le_rfl

/-- C8 counterexample: on a one-row table whose only canonical column is
`week_number`, the 16 fields before it — `policy_start_year` among them —
are assigned while the result frame's index is still empty and end up NaN
when the index is established, not filled with the integer 0 (nor with any
typed default) as the claim states. -/
theorem spec_C8_counterexample :
    colVals (finalize_output_fields dfWeekOnly) "policy_start_year"
      = [Cell.empty]
    ∧ Cell.empty ≠ Cell.num 0
    ∧ Cell.empty ≠ Cell.str "" := by
  decide

/-- C8 (amended): the fill of a canonical field absent at finalization
depends on its position relative to the first present column, not only on
its value kind.  A missing field assigned while the result frame already
has an index is broadcast to the name-based scalar default — numeric 0 for
`policy_count` and `claim_case_count`, numeric 0.0 for every field whose
name contains `yuan`, False for the two boolean fields, and the empty
string (not 0) for every other field including `policy_start_year` and
`week_number`.  A missing field assigned before the first present non-empty
column becomes an empty column that is reindexed to NaN when that column
establishes the index; when no canonical column is present at all, every
output column stays empty. -/
theorem spec_C8 :
    (∀ (df : DF) (cols : List Col) (ri : Nat) (f : String),
        df.hasCol f = false →
        finalizeStep df (cols, ri) f
          = (cols ++ [Col.mk f (List.replicate ri (defaultFor f))], ri))
    ∧ defaultFor "policy_count" = Cell.num 0
    ∧ defaultFor "claim_case_count" = Cell.num 0
    ∧ defaultFor "signed_premium_yuan" = Cell.num 0
    ∧ defaultFor "matured_premium_yuan" = Cell.num 0
    ∧ defaultFor "is_new_energy_vehicle" = Cell.bool false
    ∧ defaultFor "is_transferred_vehicle" = Cell.bool false
    ∧ defaultFor "snapshot_date" = Cell.str ""
    ∧ defaultFor "policy_start_year" = Cell.str ""
    ∧ defaultFor "week_number" = Cell.str ""
    ∧ colVals (finalize_output_fields dfSnapOnly) "policy_start_year"
      = [Cell.str ""]
    ∧ colVals (finalize_output_fields dfSnapOnly) "week_number"
      = [Cell.str ""]
    ∧ colVals (finalize_output_fields dfSnapOnly) "is_new_energy_vehicle"
      = [Cell.bool false]
    ∧ colVals (finalize_output_fields dfSnapOnly) "policy_count"
      = [Cell.num 0]
    ∧ colVals (finalize_output_fields dfSnapOnly) "signed_premium_yuan"
      = [Cell.num 0]
    ∧ colVals (finalize_output_fields dfWeekOnly) "snapshot_date"
      = [Cell.empty]
    ∧ colVals (finalize_output_fields dfWeekOnly) "week_number"
      = [Cell.num 7]
    ∧ colVals (finalize_output_fields dfWeekOnly) "policy_count"
      = [Cell.num 0]
    ∧ colVals (finalize_output_fields dfOneRow) "policy_start_year" = []
    ∧ colVals (finalize_output_fields dfOneRow) "signed_premium_yuan" = [] := by
  refine ⟨?_, by decide⟩
  intro df cols ri f h
  unfold finalizeStep
  rw [if_neg (by simp [h])]

/-- C8 witness: the scalar-default step of the amended claim evaluated at a
frame that already holds the one-row `week_number` column: the missing
`signed_premium_yuan` is broadcast to one row of numeric 0. -/
theorem spec_C8_witness :
    finalizeStep dfWeekOnly ([Col.mk "week_number" [Cell.num 7]], 1)
        "signed_premium_yuan"
      = ([Col.mk "week_number" [Cell.num 7],
          Col.mk "signed_premium_yuan" [Cell.num 0]], 1) := by
  rw [spec_C8.1 dfWeekOnly [Col.mk "week_number" [Cell.num 7]] 1
    "signed_premium_yuan" (by decide)]
  decide

attribute [local semireducible] Rat.mul Rat.add Rat.sub Rat.inv in
/-- C2: on the Scenario A table (only `签单保费(万) = 10` and
`满期净保费(万) = 9.5`), the derived fields are signed premium 100,000,
matured premium 95,000, policy count 5, claim case count 0, reported claim
payment 60,000, expense amount 15,000 and marginal contribution 38,000. -/
theorem spec_C2 :
    colVals (calculate_absolute_fields dfScenarioA) "signed_premium_yuan"
      = [Cell.num 100000]
    ∧ colVals (calculate_absolute_fields dfScenarioA) "matured_premium_yuan"
      = [Cell.num 95000]
    ∧ colVals (calculate_absolute_fields dfScenarioA) "policy_count"
      = [Cell.num 5]
    ∧ colVals (calculate_absolute_fields dfScenarioA) "claim_case_count"
      = [Cell.num 0]
    ∧ colVals (calculate_absolute_fields dfScenarioA) "reported_claim_payment_yuan"
      = [Cell.num 60000]
    ∧ colVals (calculate_absolute_fields dfScenarioA) "expense_amount_yuan"
      = [Cell.num 15000]
    ∧ colVals (calculate_absolute_fields dfScenarioA)
        "marginal_contribution_amount_yuan" = [Cell.num 38000] := by
  refine ⟨by decide, by decide, by decide, by decide, by decide, by decide,
    by decide⟩

attribute [local semireducible] Rat.mul Rat.add Rat.sub Rat.inv in
/-- C5 counterexample: on the Scenario D table (two distinct Chinese
claim-count synonyms `案件数` and `赔案件数`), no column named
`claim_case_count_1` exists after derivation and standardization, contrary
to the claim. -/
theorem spec_C5_counterexample :
    ((standardize_field_names (calculate_absolute_fields dfScenarioD)).names.contains
      "claim_case_count_1") = false := by
  decide

attribute [local semireducible] Rat.mul Rat.add Rat.sub Rat.inv in
/-- C5 (amended): the two claim-count synonym columns are both retained but
neither is mapped to the canonical name — the mapping table is injective so
the numeric-suffix collision branch never fires; the synonyms are
transliterated to the placeholder names `field_6` and `field_7`, and
`claim_case_count` is derived only from the first synonym in candidate
order (here `案件数 = 3`, not `赔案件数 = 7`). -/
theorem spec_C5 :
    (standardize_field_names (calculate_absolute_fields dfScenarioD)).names
      = ["field_6", "field_7", "signed_premium_yuan", "matured_premium_yuan",
         "policy_count", "claim_case_count", "reported_claim_payment_yuan",
         "expense_amount_yuan", "commercial_premium_before_discount_yuan",
         "marginal_contribution_amount_yuan"]
    ∧ colVals (standardize_field_names (calculate_absolute_fields dfScenarioD))
        "claim_case_count" = [Cell.num 3] := by
  refine ⟨by decide, by decide⟩

lemma findColL_replace (n : String) (vs : List Cell) :
    ∀ l : List Col, (findColL l n).isSome →
      findColL (l.map (fun c => if c.name == n then Col.mk n vs else c)) n
        = some ⟨n, vs⟩ := by
  intro l
  induction l with
  | nil => intro h; simp [findColL] at h
  | cons c t ih =>
    intro h
    by_cases hc : (c.name == n) = true
    · unfold findColL
      rw [List.map_cons, if_pos hc]
      rw [List.find?_cons_of_pos _ (by simp)]
    · unfold findColL
      rw [List.map_cons, if_neg hc]
      rw [List.find?_cons_of_neg _ (by simp [hc])]
      apply ih
      unfold findColL at h
      rw [List.find?_cons_of_neg _ (by simp [hc])] at h
      exact h

lemma findColL_replace_ne (n m : String) (vs : List Cell) (h : n ≠ m) :
    ∀ l : List Col,
      findColL (l.map (fun c => if c.name == n then Col.mk n vs else c)) m
        = findColL l m := by
  intro l
  induction l with
  | nil => rfl
  | cons c t ih =>
    by_cases hc : (c.name == n) = true
    · have hcn : c.name = n := by simpa using hc
      have hnm : ((Col.mk n vs).name == m) = false := by
        simpa using h
      have hcm : (c.name == m) = false := by
        rw [hcn]; simpa using h
      unfold findColL
      rw [List.map_cons, if_pos hc]
      rw [List.find?_cons_of_neg _ (by simp [hnm])]
      rw [List.find?_cons_of_neg _ (by simp [hcm])]
      exact ih
    · unfold findColL
      rw [List.map_cons, if_neg hc]
      by_cases hm : (c.name == m) = true
      · rw [List.find?_cons_of_pos _ (by simp [hm])]
        rw [List.find?_cons_of_pos _ (by simp [hm])]
      · rw [List.find?_cons_of_neg _ (by simp [hm])]
        rw [List.find?_cons_of_neg _ (by simp [hm])]
        exact ih

lemma colVals_setCol_same (df : DF) (n : String) (vs : List Cell) :
    colVals (df.setCol n vs) n = vs := by
  unfold colVals DF.findCol DF.setCol setColL
  by_cases h : (findColL df.cols n).isSome
  · rw [if_pos h]
    rw [findColL_replace n vs df.cols h]
  · rw [if_neg h]
    unfold findColL
    rw [List.find?_append]
    have h2 : findColL df.cols n = none := by
      cases hf : findColL df.cols n with
      | none => rfl
      | some c => rw [hf] at h; simp at h
    unfold findColL at h2
    rw [h2]
    simp

lemma colVals_setCol_ne (df : DF) (n m : String) (vs : List Cell)
    (h : n ≠ m) : colVals (df.setCol n vs) m = colVals df m := by
  unfold colVals DF.findCol DF.setCol setColL
  by_cases hs : (findColL df.cols n).isSome
  · rw [if_pos hs]
    rw [findColL_replace_ne n m vs h df.cols]
  · rw [if_neg hs]
    unfold findColL
    rw [List.find?_append]
    have h2 : ((Col.mk n vs).name == m) = false := by simpa using h
    simp [h2]

lemma calc_colVals_marginal (df : DF) :
    colVals (calculate_absolute_fields df) "marginal_contribution_amount_yuan"
      = (marginalSeries df).map Cell.num := by
  unfold calculate_absolute_fields
  exact colVals_setCol_same _ _ _

lemma calc_colVals_matured (df : DF) :
    colVals (calculate_absolute_fields df) "matured_premium_yuan"
      = (maturedSeries df).map Cell.num := by
  unfold calculate_absolute_fields
  rw [colVals_setCol_ne _ _ _ _ (by decide)]
  rw [colVals_setCol_ne _ _ _ _ (by decide)]
  rw [colVals_setCol_ne _ _ _ _ (by decide)]
  rw [colVals_setCol_ne _ _ _ _ (by decide)]
  rw [colVals_setCol_ne _ _ _ _ (by decide)]
  rw [colVals_setCol_ne _ _ _ _ (by decide)]
  exact colVals_setCol_same _ _ _

lemma foldl_ratMax_ge (xs : List ℚ) :
    ∀ x : ℚ,
      x ≤ xs.foldl (fun a b => if a ≤ b then b else a) x
      ∧ ∀ b ∈ xs, b ≤ xs.foldl (fun a b => if a ≤ b then b else a) x := by
  induction xs with
  | nil =>
    intro x
    exact ⟨le_refl x, by simp⟩
  | cons y ys ih =>
    intro x
    rw [List.foldl_cons]
    have hx : x ≤ (if x ≤ y then y else x) := by
      by_cases h : x ≤ y
      · simp only [if_pos h]; exact h
      · simp [h]
    have hy : y ≤ (if x ≤ y then y else x) := by
      by_cases h : x ≤ y
      · simp [h]
      · simpa [h] using le_of_not_le h
    refine ⟨le_trans hx (ih _).1, ?_⟩
    intro b hb
    rcases List.mem_cons.mp hb with rfl | hb2
    · exact le_trans hy (ih _).1
    · exact (ih _).2 b hb2

lemma le_listMax_of_mem {a : ℚ} {l : List ℚ} (h : a ∈ l) :
    ∃ mx, listMax l = some mx ∧ a ≤ mx := by
  cases l with
  | nil => cases h
  | cons x xs =>
    refine ⟨_, rfl, ?_⟩
    rcases List.mem_cons.mp h with rfl | h2
    · exact (foldl_ratMax_ge xs a).1
    · exact (foldl_ratMax_ge xs x).2 a h2

/-- C10: when a variable-cost-ratio column is present, a cell of it that
fails numeric parsing is treated as the value 60 (percent) rather than 0,
so that row's marginal contribution equals the matured premium times 0.4 —
the same value as the column-absent fallback. -/
theorem spec_C10 (df : DF) (f : String) (i : Nat) (cell : Cell) (m : ℚ)
    (h1 : find_field df possible_variable_cost_ratio = some f)
    (h2 : (colVals df f)[i]? = some cell)
    (h3 : toNumeric cell = none)
    (h4 : (colVals (calculate_absolute_fields df) "matured_premium_yuan")[i]?
      = some (Cell.num m)) :
    (colVals (calculate_absolute_fields df)
        "marginal_contribution_amount_yuan")[i]?
      = some (Cell.num (m * (4/10)))
    ∧ (toNumeric cell).getD 60 = 60 ∧ (toNumeric cell).getD 0 = 0 := by
  refine ⟨?_, by rw [h3]; rfl, by rw [h3]; rfl⟩
  rw [calc_colVals_matured] at h4
  rw [List.getElem?_map] at h4
  have hm : (maturedSeries df)[i]? = some m := by
    cases hq : (maturedSeries df)[i]? with
    | none => rw [hq] at h4; simp at h4
    | some q =>
      rw [hq] at h4
      have h5 : some (Cell.num q) = some (Cell.num m) := h4
      have h6 := Option.some.inj h5
      rw [Cell.num.injEq] at h6
      rw [h6]
  have hv : (seriesFill df f 60)[i]? = some 60 := by
    unfold seriesFill
    rw [List.getElem?_map, h2]
    simp [h3]
  have hv60 : (60 : ℚ) ∈ seriesFill df f 60 := List.getElem?_mem hv
  obtain ⟨mx, hmx, hle⟩ := le_listMax_of_mem hv60
  have hmx1 : ¬ (mx ≤ 1) := by
    intro hc
    linarith
  rw [calc_colVals_marginal]
  have hms : marginalSeries df
      = List.zipWith (fun mt r => mt * ((100 - r) / 100)) (maturedSeries df)
        (seriesFill df f 60) := by
    unfold marginalSeries
    rw [h1]
    dsimp only
    rw [hmx]
    dsimp only
    rw [if_neg hmx1]
  rw [hms]
  rw [List.getElem?_map, List.getElem?_zipWith, hm, hv]
  have hval : m * ((100 - 60) / 100) = m * (4 / 10) := by norm_num
  simp [hval]

attribute [local semireducible] Rat.mul Rat.add Rat.sub Rat.inv in
/-- C10 witness: a table whose ratio cell is the unparsable text `N/A` and
whose matured premium is 20,000 yields marginal contribution 8,000. -/
theorem spec_C10_witness :
    (colVals (calculate_absolute_fields dfVarCost)
        "marginal_contribution_amount_yuan")[0]?
      = some (Cell.num 8000) := by
  have h := (spec_C10 dfVarCost "变动成本率" 0 (Cell.str "N/A") 20000
    (by decide) (by decide) (by decide) (by decide)).1
  rw [h]
  norm_num

lemma colVals_eq_nil (df : DF) (n : String) (h : df.hasCol n = false) :
    colVals df n = [] := by
  unfold colVals
  unfold DF.hasCol at h
  cases hf : df.findCol n with
  | none => rfl
  | some c => rw [hf] at h; simp at h

/-- C6: exactly one (year, week) key is assigned per table, and it follows
the specified priority: year is the mode of the mapped policy-start-year
column when it yields at least one numeric value, else the first 4-digit
number of the file name, else the current calendar year; week is the mode
of the mapped week-number column when it yields a numeric value, else the
`第N周` pattern of the file name, else the current ISO week. -/
theorem spec_C6 (df : DF) (filename : String) (nowYear nowWeek : ℤ) :
    extract_year_and_week df filename nowYear nowWeek
      = (yearSpec df filename nowYear, weekSpec df filename nowWeek) := by
  unfold extract_year_and_week yearSpec weekSpec
  dsimp only
  congr 1
  · by_cases hc : df.hasCol "policy_start_year" = true
    · cases hp : colVals df "policy_start_year" with
      | nil => simp [hc, hp, modeVal]
      | cons x xs =>
        cases hm : modeVal ((x :: xs).filterMap toNumeric) with
        | none => simp [hc, hp, hm]
        | some q => simp [hc, hp, hm]
    · have hc2 : df.hasCol "policy_start_year" = false := by simpa using hc
      have hnil := colVals_eq_nil df _ hc2
      simp [hc2, hnil, modeVal]
  · by_cases hc : df.hasCol "week_number" = true
    · cases hp : colVals df "week_number" with
      | nil => simp [hc, hp, modeVal]
      | cons x xs =>
        cases hm : modeVal ((x :: xs).filterMap toNumeric) with
        | none => simp [hc, hp, hm]
        | some q => simp [hc, hp, hm]
    · have hc2 : df.hasCol "week_number" = false := by simpa using hc
      have hnil := colVals_eq_nil df _ hc2
      simp [hc2, hnil, modeVal]

lemma processOneFile_count (nowYear nowWeek : ℤ) (st : BatchState)
    (f : InputFile) :
    (processOneFile nowYear nowWeek st f).processed.length
      + (processOneFile nowYear nowWeek st f).failed.length
      = st.processed.length + st.failed.length + 1 := by
  cases hE : f.df.isEmpty with
  | true =>
    simp [processOneFile, hE]
    omega
  | false =>
    cases hW : f.write_fails with
    | true =>
      simp [processOneFile, hE, hW]
      omega
    | false =>
      simp [processOneFile, hE, hW]
      omega

lemma foldl_processOneFile_count (nowYear nowWeek : ℤ) :
    ∀ (files : List InputFile) (st : BatchState),
      ((files.foldl (processOneFile nowYear nowWeek) st).processed.length
        + (files.foldl (processOneFile nowYear nowWeek) st).failed.length)
        = st.processed.length + st.failed.length + files.length := by
  intro files
  induction files with
  | nil => intro st; simp
  | cons f t ih =>
    intro st
    rw [List.foldl_cons, List.length_cons]
    rw [ih (processOneFile nowYear nowWeek st f)]
    have h := processOneFile_count nowYear nowWeek st f
    omega

attribute [local semireducible] Rat.mul Rat.add Rat.sub Rat.inv in
/-- C7: for every batch the report satisfies
`total_files = successful + failed` and counts every table attempted; on
the Scenario C batch of three tables whose second table is empty, the
report is total 3, successful 2, failed 1, with the empty table recorded as
a failure with its reason string. -/
theorem spec_C7 :
    (∀ (nowYear nowWeek : ℤ) (files : List InputFile),
        (process_all_files nowYear nowWeek files).total_files
          = (process_all_files nowYear nowWeek files).successful
            + (process_all_files nowYear nowWeek files).failed
        ∧ (process_all_files nowYear nowWeek files).total_files
          = files.length)
    ∧ (process_all_files 2025 7 scenarioCFiles).total_files = 3
    ∧ (process_all_files 2025 7 scenarioCFiles).successful = 2
    ∧ (process_all_files 2025 7 scenarioCFiles).failed = 1
    ∧ (process_all_files 2025 7 scenarioCFiles).failed_files
      = [("b.csv", "文件为空")] := by
  refine ⟨?_, by decide, by decide, by decide, by decide⟩
  intro nowYear nowWeek files
  constructor
  · rfl
  · show (files.foldl (processOneFile nowYear nowWeek) ⟨[], [], []⟩).processed.length
        + (files.foldl (processOneFile nowYear nowWeek) ⟨[], [], []⟩).failed.length
      = files.length
    rw [foldl_processOneFile_count nowYear nowWeek files ⟨[], [], []⟩]
    simp

lemma mem_addYear_self (ys : List ℤ) (y : ℤ) : y ∈ addYear ys y := by
  unfold addYear
  split
  · assumption
  · exact List.mem_append_right _ (List.mem_singleton.mpr rfl)

lemma mem_addYear_of_mem (ys : List ℤ) (y a : ℤ) (h : a ∈ ys) :
    a ∈ addYear ys y := by
  unfold addYear
  split
  · exact h
  · exact List.mem_append_left _ h

lemma processOneFile_years_mono (nowYear nowWeek : ℤ) (st : BatchState)
    (f : InputFile) (a : ℤ) (h : a ∈ st.years) :
    a ∈ (processOneFile nowYear nowWeek st f).years := by
  cases hE : f.df.isEmpty with
  | true => simpa [processOneFile, hE] using h
  | false =>
    cases hW : f.write_fails with
    | true =>
      simp [processOneFile, hE, hW]
      exact mem_addYear_of_mem _ _ _ h
    | false =>
      simp [processOneFile, hE, hW]
      exact mem_addYear_of_mem _ _ _ h

lemma processOneFile_failed_mono (nowYear nowWeek : ℤ) (st : BatchState)
    (f : InputFile) (p : String × String) (h : p ∈ st.failed) :
    p ∈ (processOneFile nowYear nowWeek st f).failed := by
  cases hE : f.df.isEmpty with
  | true =>
    simp [processOneFile, hE]
    exact Or.inl h
  | false =>
    cases hW : f.write_fails with
    | true =>
      simp [processOneFile, hE, hW]
      exact Or.inl h
    | false => simpa [processOneFile, hE, hW] using h

lemma foldl_years_mono (nowYear nowWeek : ℤ) :
    ∀ (files : List InputFile) (st : BatchState) (a : ℤ), a ∈ st.years →
      a ∈ (files.foldl (processOneFile nowYear nowWeek) st).years := by
  intro files
  induction files with
  | nil => intro st a h; exact h
  | cons f t ih =>
    intro st a h
    rw [List.foldl_cons]
    exact ih _ a (processOneFile_years_mono nowYear nowWeek st f a h)

lemma foldl_failed_mono (nowYear nowWeek : ℤ) :
    ∀ (files : List InputFile) (st : BatchState) (p : String × String),
      p ∈ st.failed →
      p ∈ (files.foldl (processOneFile nowYear nowWeek) st).failed := by
  intro files
  induction files with
  | nil => intro st p h; exact h
  | cons f t ih =>
    intro st p h
    rw [List.foldl_cons]
    exact ih _ p (processOneFile_failed_mono nowYear nowWeek st f p h)

lemma mem_sortedInsert_self (y : ℤ) :
    ∀ l : List ℤ, y ∈ sortedInsert y l := by
  intro l
  induction l with
  | nil => exact List.mem_singleton.mpr rfl
  | cons x xs ih =>
    unfold sortedInsert
    split
    · exact List.mem_cons_self y _
    · exact List.mem_cons_of_mem x ih

lemma mem_sortedInsert_of_mem (y a : ℤ) :
    ∀ l : List ℤ, a ∈ l → a ∈ sortedInsert y l := by
  intro l
  induction l with
  | nil => intro h; cases h
  | cons x xs ih =>
    intro h
    unfold sortedInsert
    split
    · exact List.mem_cons_of_mem y h
    · rcases List.mem_cons.mp h with rfl | h2
      · exact List.mem_cons_self a _
      · exact List.mem_cons_of_mem x (ih h2)

lemma mem_sortInts_of_mem (a : ℤ) :
    ∀ l : List ℤ, a ∈ l → a ∈ sortInts l := by
  intro l
  induction l with
  | nil => intro h; cases h
  | cons x xs ih =>
    intro h
    unfold sortInts
    rw [List.foldr_cons]
    rcases List.mem_cons.mp h with rfl | h2
    · exact mem_sortedInsert_self a _
    · exact mem_sortedInsert_of_mem x a _ (ih h2)

/-- C9: a table that fails after its (year, week) key has been extracted
(modelled by `write_fails`) is counted among the failed files, yet its
extracted year still appears in the report's `years_processed` list. -/
theorem spec_C9 (nowYear nowWeek : ℤ) (l1 l2 : List InputFile)
    (f : InputFile) (h1 : f.df.isEmpty = false) (h2 : f.write_fails = true) :
    (extract_year_and_week
        (standardize_field_names (calculate_absolute_fields f.df))
        f.name nowYear nowWeek).1
      ∈ (process_all_files nowYear nowWeek (l1 ++ f :: l2)).years_processed
    ∧ (f.name, "处理失败")
      ∈ (process_all_files nowYear nowWeek (l1 ++ f :: l2)).failed_files := by
  unfold process_all_files
  dsimp only
  rw [List.foldl_append, List.foldl_cons]
  have hstep : processOneFile nowYear nowWeek
      (l1.foldl (processOneFile nowYear nowWeek) ⟨[], [], []⟩) f
      = { (l1.foldl (processOneFile nowYear nowWeek) ⟨[], [], []⟩) with
          years := addYear
            (l1.foldl (processOneFile nowYear nowWeek) ⟨[], [], []⟩).years
            (extract_year_and_week
              (standardize_field_names (calculate_absolute_fields f.df))
              f.name nowYear nowWeek).1,
          failed := (l1.foldl (processOneFile nowYear nowWeek)
            ⟨[], [], []⟩).failed ++ [(f.name, "处理失败")] } := by
    simp [processOneFile, h1, h2]
  rw [hstep]
  constructor
  · apply mem_sortInts_of_mem
    apply foldl_years_mono
    exact mem_addYear_self _ _
  · apply foldl_failed_mono
    exact List.mem_append_right _ (List.mem_singleton.mpr rfl)

attribute [local semireducible] Rat.mul Rat.add Rat.sub Rat.inv in
/-- C9 witness: a one-table batch whose table fails at output time still
reports the extracted year 2025 while counting the table as failed. -/
theorem spec_C9_witness :
    ((2025 : ℤ) ∈ (process_all_files 2025 7 [fileW9]).years_processed)
    ∧ ("w.csv", "处理失败")
      ∈ (process_all_files 2025 7 [fileW9]).failed_files := by
  have h := spec_C9 2025 7 [] [] fileW9 (by decide) (by decide)
  have e : (extract_year_and_week
      (standardize_field_names (calculate_absolute_fields fileW9.df))
      fileW9.name 2025 7).1 = 2025 := by decide
  rw [e] at h
  exact h
